import Mathlib

/-!
Verification of the visitreports service (src/main.go) against its
natural-language specification.

The Go program is shallowly embedded: the document store is a list of
visit-report documents, store and service-bus operations are modelled by
their effect on that list together with explicit success/failure oracles
for the external calls (bind, create, read, replace, marshal, send, query),
and each HTTP handler and the subscription handler is a pure function from
its inputs and oracles to a result record (persisted document, published
messages, HTTP response, message disposition).
-/

namespace VisitReports

/-- ContactDoc (main.go 35–41): the embedded contact snapshot, also the wire
shape of an inbound contact-change notification. -/
structure ContactDoc where
  id : String
  firstname : String
  lastname : String
  avatarLocation : String
  company : String
deriving DecidableEq

/-- VisitReportModel (main.go 44–55): the stored visit-report document; `id`
is the embedded cosmosapi.Document id. `visitResultSentimentScore` is a
float64 in the source; none of the modelled operations compute on it (it is
only copied verbatim), so it is represented by an integer-valued score. -/
structure VisitReportModel where
  id : String
  type : String
  detectedLanguage : String
  subject : String
  description : String
  visitDate : String
  result : String
  visitResultSentimentScore : Int
  visitResultKeyPhrases : List String
  contact : ContactDoc
deriving DecidableEq

/-- VisitReportReadDoc (main.go 58–67): the outward projection of a report. -/
structure VisitReportReadDoc where
  id : String
  subject : String
  description : String
  visitDate : String
  result : String
  visitResultSentimentScore : Int
  visitResultKeyPhrases : List String
  contact : ContactDoc
deriving DecidableEq

/-- VisitReportEventDoc (main.go 70–74): eventType and version plus the
embedded read projection. -/
structure VisitReportEventDoc where
  eventType : String
  version : String
  payload : VisitReportReadDoc
deriving DecidableEq

/-- VisitReportUpdateDoc (main.go 85–92): the update request body. -/
structure VisitReportUpdateDoc where
  id : String
  subject : String
  description : String
  result : String
  visitDate : String
  contact : ContactDoc
deriving DecidableEq

/-- A successfully sent service-bus message: the Message.ContentType tag and
the event document (standing for its JSON wire form, Message.Data), together
with the destination topic name and the context deadline (in seconds) under
which Topic.Send runs. -/
structure SbMessage where
  contentType : String
  topic : String
  deadlineSeconds : Nat
  payload : VisitReportEventDoc
deriving DecidableEq

/-- copier.Copy from a VisitReportModel onto a VisitReportReadDoc: the fields
of the same name are copied (all read-doc fields exist on the model). -/
def toReadDoc (m : VisitReportModel) : VisitReportReadDoc :=
  ⟨m.id, m.subject, m.description, m.visitDate, m.result,
   m.visitResultSentimentScore, m.visitResultKeyPhrases, m.contact⟩

/-- The Go zero value of ContactDoc (what `doc` holds when json.Unmarshal
fails and writes nothing). -/
def zeroContact : ContactDoc := ⟨"", "", "", "", ""⟩

/-- The Go zero value of VisitReportModel. -/
def zeroModel : VisitReportModel := ⟨"", "", "", "", "", "", "", 0, [], zeroContact⟩

/-- The Go zero value of VisitReportReadDoc (`doc := VisitReportReadDoc{}`). -/
def zeroReadDoc : VisitReportReadDoc := ⟨"", "", "", "", "", 0, [], zeroContact⟩

/-- ReplaceDocument by document id: the stored document whose id equals
docId is overwritten with newDoc; every other document is untouched. -/
def replaceDocument (store : List VisitReportModel) (docId : String)
    (newDoc : VisitReportModel) : List VisitReportModel :=
  store.map fun r => if r.id = docId then newDoc else r

/-- QueryDocuments with "SELECT * FROM c where c.contact.id = @contactid"
(main.go 185–196): all stored reports whose embedded contact id equals the
parameter. -/
def queryByContactId (store : List VisitReportModel) (contactId : String) :
    List VisitReportModel :=
  store.filter fun r => r.contact.id = contactId

/-- The document mutation inside updateInBg (main.go 224–228): the four
descriptive contact fields are overwritten from the notification and the
document type is re-stamped; nothing else changes — in particular neither
the document id nor the embedded contact id. -/
def updateContactFields (v : VisitReportModel) (contact : ContactDoc) :
    VisitReportModel :=
  { v with
      type := "visitreport"
      contact := { v.contact with
        firstname := contact.firstname
        lastname := contact.lastname
        avatarLocation := contact.avatarLocation
        company := contact.company } }

/-- updateInBg (main.go 219–235) as its effect on the store: the queried copy
v is mutated with updateContactFields and written back via ReplaceDocument at
v's own id. A replace error is only logged (main.go 230–233), leaving the
store unchanged; replaceOk says whether this report's replace succeeded. -/
def updateInBg (store : List VisitReportModel) (v : VisitReportModel)
    (contact : ContactDoc) (replaceOk : Bool) : List VisitReportModel :=
  if replaceOk then replaceDocument store v.id (updateContactFields v contact)
  else store

/-- The fan-out (main.go 202–207): one updateInBg goroutine per queried
report, joined by wg.Wait. When the store's document ids are pairwise
distinct the goroutines write to distinct documents, so the concurrent
execution is linearized as a left fold over the query result. replaceOk
gives, per document id, whether that report's ReplaceDocument succeeds. -/
def fanOut (store : List VisitReportModel) (contact : ContactDoc)
    (replaceOk : String → Bool) : List VisitReportModel :=
  (queryByContactId store contact.id).foldl
    (fun acc v => updateInBg acc v contact (replaceOk v.id)) store

/-- Processing one contact-change notification on the success path: every
per-report replace succeeds. -/
def processNotification (store : List VisitReportModel) (c : ContactDoc) :
    List VisitReportModel :=
  fanOut store c (fun _ => true)

/-- What the subscription handler did with one delivered message. -/
structure HandlerResult where
  abandoned : Bool
  completed : Bool
  queried : Bool
  store : List VisitReportModel
deriving DecidableEq

/-- The subscription handler (main.go 170–211). decoded = none models a
json.Unmarshal failure; in that case the Go code calls m.Abandon and logs the
error but does not return, so doc keeps its zero value and the handler falls
through to the query. QueryDocuments is reached on every path; queryOk =
false models a query error, which is logged while docs stays empty, so no
report is updated. m.Complete is called at the end on every path. -/
def runHandler (store : List VisitReportModel) (decoded : Option ContactDoc)
    (queryOk : Bool) (replaceOk : String → Bool) : HandlerResult :=
  let doc := decoded.getD zeroContact
  { abandoned := decoded.isNone
    completed := true
    queried := true
    store := if queryOk then fanOut store doc replaceOk else store }

/-- The HTTP responses the handlers write. noneWritten is a handler
returning without writing anything (gin then sends its default 200 with an
empty body). -/
inductive HttpResponse where
  | badRequest (msg : String)
  | serverError
  | json (status : Nat) (body : VisitReportReadDoc)
  | statusOnly (status : Nat)
  | noneWritten
deriving DecidableEq

/-- Outcome of a mutation handler: the document written to the store (at
which id), the successfully sent messages, and the HTTP response. -/
structure MutationResult where
  persisted : Option (String × VisitReportModel)
  published : List SbMessage
  response : HttpResponse
deriving DecidableEq

/-- create (main.go 363–422). Oracles: bind is the ShouldBindJSON outcome
(the request body bound into a VisitReportModel, or an error); newId is
uuid.New().String(); createOk is CreateDocument's outcome; readBack is the
GetDocument re-read (none = read error, which is only logged while doc keeps
its zero value); marshalOk is json.Marshal; sendOk is Topic.Send under the
10-second context to topic "scmvrtopic". A marshal or send error is printed
and the handler returns without writing a response. -/
def create (bind : Except String VisitReportModel) (newId : String)
    (createOk : Bool) (readBack : Option VisitReportModel)
    (marshalOk sendOk : Bool) : MutationResult :=
  match bind with
  | .error e => ⟨none, [], .badRequest e⟩
  | .ok vr0 =>
    let vr := { vr0 with type := "visitreport", id := newId }
    if createOk then
      let doc := readBack.getD zeroModel
      let eventDoc : VisitReportEventDoc :=
        ⟨"VisitReportCreatedEvent", "1", toReadDoc doc⟩
      if marshalOk then
        let msg : SbMessage := ⟨"application/json", "scmvrtopic", 10, eventDoc⟩
        if sendOk then ⟨some (newId, vr), [msg], .json 201 (toReadDoc doc)⟩
        else ⟨some (newId, vr), [], .noneWritten⟩
      else ⟨some (newId, vr), [], .noneWritten⟩
    else ⟨none, [], .serverError⟩

/-- copier.Copy(&model, &vr) in update (main.go 443): the update-doc fields
(id, subject, description, result, visitDate, contact) are copied by name
onto the fetched model; the contact sub-document is replaced wholesale. -/
def overlayUpdate (model : VisitReportModel) (vr : VisitReportUpdateDoc) :
    VisitReportModel :=
  { model with
      id := vr.id
      subject := vr.subject
      description := vr.description
      result := vr.result
      visitDate := vr.visitDate
      contact := vr.contact }

/-- update (main.go 424–481). fetched is the GetDocument outcome (none =
fetch error, only logged, model keeps its zero value and the handler
continues); replaceOk is ReplaceDocument at the URL's reportid; marshalOk and
sendOk are as in create. The final copier.Copy(&model, &doc) at main.go 479
has the just-created zero VisitReportReadDoc as its copy source, so the body
serialized by c.JSON is the zero read doc, not the model's projection. -/
def update (reportid : String) (bind : Except String VisitReportUpdateDoc)
    (fetched : Option VisitReportModel) (replaceOk marshalOk sendOk : Bool) :
    MutationResult :=
  match bind with
  | .error e => ⟨none, [], .badRequest e⟩
  | .ok vr =>
    let model := overlayUpdate (fetched.getD zeroModel) vr
    if replaceOk then
      let eventDoc : VisitReportEventDoc :=
        ⟨"VisitReportUpdatedEvent", "1", toReadDoc model⟩
      if marshalOk then
        let msg : SbMessage := ⟨"application/json", "scmvrtopic", 10, eventDoc⟩
        if sendOk then ⟨some (reportid, model), [msg], .json 200 zeroReadDoc⟩
        else ⟨some (reportid, model), [], .noneWritten⟩
      else ⟨some (reportid, model), [], .noneWritten⟩
    else ⟨none, [], .serverError⟩

/-- Outcome of the delete handler: whether the store delete removed the
document, and the response. -/
structure DeleteResult where
  removed : Bool
  response : HttpResponse
deriving DecidableEq

/-- delete (main.go 349–361): a DeleteDocument error is only logged
(main.go 356–359); the handler ends with c.Status(200) unconditionally. -/
def deleteReport (deleteOk : Bool) : DeleteResult :=
  ⟨deleteOk, .statusOnly 200⟩

/-- Pointwise effect of one notification on a stored report: matched reports
(embedded contact id equals the notification id) whose replace succeeds are
overwritten with updateContactFields; all others are untouched. -/
def snapshotStep (c : ContactDoc) (ok : String → Bool) (r : VisitReportModel) :
    VisitReportModel :=
  if r.contact.id = c.id ∧ ok r.id = true then updateContactFields r c else r

/-- Sample data used by the concrete witnesses and counterexamples. -/
def sampleContact : ContactDoc := ⟨"c1", "Ann", "Lee", "img/ann.png", "Acme"⟩

def sampleReport : VisitReportModel :=
  ⟨"r1", "visitreport", "en", "Q1 review", "first visit", "2020-01-01", "fine",
   1, ["budget"], ⟨"c1", "Bob", "Old", "img/old.png", "OldCo"⟩⟩

def sampleReport2 : VisitReportModel :=
  ⟨"r2", "visitreport", "en", "Q2 review", "second visit", "2020-02-01", "ok",
   2, [], ⟨"c1", "Bob", "Old", "img/old.png", "OldCo"⟩⟩

def sampleUpdateDoc : VisitReportUpdateDoc :=
  ⟨"r1", "Q1 review (edited)", "desc2", "better", "2020-01-02", sampleContact⟩

/-- updateContactFields changes neither the document id nor the embedded
contact id. -/
theorem updateContactFields_id (v : VisitReportModel) (c : ContactDoc) :
    (updateContactFields v c).id = v.id := rfl

theorem updateContactFields_contact_id (v : VisitReportModel) (c : ContactDoc) :
    (updateContactFields v c).contact.id = v.contact.id := rfl

/-- Overwriting the same four fields from the same source twice equals doing
it once. -/
theorem updateContactFields_idem (v : VisitReportModel) (c : ContactDoc) :
    updateContactFields (updateContactFields v c) c = updateContactFields v c := rfl

/-- replaceDocument keeps the list of document ids when the new document
carries the replaced id. -/
theorem replaceDocument_ids (store : List VisitReportModel) (docId : String)
    (newDoc : VisitReportModel) (hid : newDoc.id = docId) :
    (replaceDocument store docId newDoc).map (fun r => r.id) =
      store.map fun r => r.id := by
  unfold replaceDocument
  rw [List.map_map]
  refine List.map_congr_left ?_
  intro r _
  by_cases h : r.id = docId
  · simp [h, hid]
  · simp [h]

/-- A document whose id differs from the replaced id survives a
replaceDocument untouched. -/
theorem mem_replaceDocument (store : List VisitReportModel) (docId : String)
    (newDoc w : VisitReportModel) (hw : w ∈ store) (hne : w.id ≠ docId) :
    w ∈ replaceDocument store docId newDoc := by
  unfold replaceDocument
  refine List.mem_map.2 ⟨w, hw, ?_⟩
  simp [hne]

/-- updateInBg keeps the list of document ids. -/
theorem updateInBg_ids (store : List VisitReportModel) (v : VisitReportModel)
    (c : ContactDoc) (b : Bool) :
    (updateInBg store v c b).map (fun r => r.id) = store.map fun r => r.id := by
  unfold updateInBg
  cases b
  · simp
  · simpa using replaceDocument_ids store v.id (updateContactFields v c) rfl

/-- A document whose id differs from the processed report's id survives an
updateInBg untouched. -/
theorem mem_updateInBg (store : List VisitReportModel) (v w : VisitReportModel)
    (c : ContactDoc) (b : Bool) (hw : w ∈ store) (hne : w.id ≠ v.id) :
    w ∈ updateInBg store v c b := by
  unfold updateInBg
  cases b
  · simpa using hw
  · simpa using mem_replaceDocument store v.id (updateContactFields v c) w hw hne

/-- The fold of per-report replace-by-id operations over a duplicate-free
batch of reports drawn from a duplicate-free store acts pointwise: each store
document that is in the batch and whose replace succeeds is overwritten, all
others are untouched. -/
theorem foldl_updateInBg_eq_map (c : ContactDoc) (ok : String → Bool) :
    ∀ (l s : List VisitReportModel),
      ((s.map fun r => r.id).Nodup) → ((l.map fun r => r.id).Nodup) →
      (∀ v ∈ l, v ∈ s) →
      l.foldl (fun acc v => updateInBg acc v c (ok v.id)) s =
        s.map fun r =>
          if r ∈ l ∧ ok r.id = true then updateContactFields r c else r
  | [], s, _, _, _ => by
      simp
  | v :: l, s, hs, hl, hmem => by
      have hvs : v ∈ s := hmem v (List.mem_cons_self v l)
      have hvid : v.id ∉ l.map fun r => r.id := by
        intro hcon
        exact (List.nodup_cons.1 hl).1 hcon
      have hs2 : (((updateInBg s v c (ok v.id)).map fun r => r.id).Nodup) := by
        rw [updateInBg_ids]; exact hs
      have hl2 : ((l.map fun r => r.id).Nodup) := (List.nodup_cons.1 hl).2
      have hmem2 : ∀ w ∈ l, w ∈ updateInBg s v c (ok v.id) := by
        intro w hw
        have hwne : w.id ≠ v.id := by
          intro hcon
          exact hvid (hcon ▸ List.mem_map_of_mem (fun r => r.id) hw)
        exact mem_updateInBg s v w c (ok v.id) (hmem w (List.mem_cons_of_mem v hw)) hwne
      rw [List.foldl_cons, foldl_updateInBg_eq_map c ok l _ hs2 hl2 hmem2]
      by_cases hok : ok v.id = true
      · have hstep : updateInBg s v c (ok v.id) =
            s.map fun r => if r.id = v.id then updateContactFields v c else r := by
          rw [hok]; rfl
        rw [hstep, List.map_map]
        refine List.map_congr_left ?_
        intro r hr
        simp only [Function.comp_apply]
        by_cases hid : r.id = v.id
        · have hrv : r = v := List.inj_on_of_nodup_map hs hr hvs hid
          subst hrv
          have hnotin : updateContactFields r c ∉ l := by
            intro hcon
            refine hvid ?_
            simpa [updateContactFields_id] using
              List.mem_map_of_mem (fun x => x.id) hcon
          simp [hnotin, hok, List.mem_cons]
        · have hrv : r ≠ v := fun hcon => hid (hcon ▸ rfl)
          rw [if_neg hid]
          simp [List.mem_cons, hrv]
      · have hok2 : ok v.id = false := by simpa using hok
        have hstep : updateInBg s v c (ok v.id) = s := by rw [hok2]; rfl
        rw [hstep]
        refine List.map_congr_left ?_
        intro r hr
        by_cases hrv : r = v
        · subst hrv
          simp [List.mem_cons, hok2]
        · simp [List.mem_cons, hrv]

/-- Under distinct document ids, the fan-out is the pointwise overwrite of
every matched report whose replace succeeds. -/
theorem fanOut_eq_map (store : List VisitReportModel) (c : ContactDoc)
    (ok : String → Bool) (hnd : ((store.map fun r => r.id).Nodup)) :
    fanOut store c ok = store.map (snapshotStep c ok) := by
  unfold fanOut
  have hsub : ((queryByContactId store c.id).map fun r => r.id).Nodup :=
    List.Nodup.sublist
      (List.Sublist.map (fun r => r.id) (List.filter_sublist store)) hnd
  have hmem : ∀ v ∈ queryByContactId store c.id, v ∈ store := by
    intro v hv
    exact (List.mem_filter.1 hv).1
  rw [foldl_updateInBg_eq_map c ok (queryByContactId store c.id) store hnd hsub hmem]
  refine List.map_congr_left ?_
  intro r hr
  unfold snapshotStep queryByContactId
  by_cases hp : r.contact.id = c.id
  · by_cases hok : ok r.id = true
    · rw [if_pos ⟨List.mem_filter.2 ⟨hr, by simp [hp]⟩, hok⟩, if_pos ⟨hp, hok⟩]
    · rw [if_neg (by simp [hok]), if_neg (by simp [hok])]
  · rw [if_neg, if_neg]
    · simp [hp]
    · intro hcon
      exact hp (by simpa using (List.mem_filter.1 hcon.1).2)

/-- The fan-out preserves the length of the store. -/
theorem fanOut_length (store : List VisitReportModel) (c : ContactDoc)
    (ok : String → Bool) (hnd : ((store.map fun r => r.id).Nodup)) :
    (fanOut store c ok).length = store.length := by
  rw [fanOut_eq_map store c ok hnd, List.length_map]

/-- The fan-out preserves the list of document ids. -/
theorem fanOut_ids (store : List VisitReportModel) (c : ContactDoc)
    (ok : String → Bool) (hnd : ((store.map fun r => r.id).Nodup)) :
    (fanOut store c ok).map (fun r => r.id) = store.map fun r => r.id := by
  rw [fanOut_eq_map store c ok hnd, List.map_map]
  refine List.map_congr_left ?_
  intro r _
  unfold snapshotStep
  by_cases h : r.contact.id = c.id ∧ ok r.id = true
  · simp [h, updateContactFields_id]
  · simp [h]

/-- C1: for every processed contact-change notification for contact c and
every stored report whose embedded contact id equals c.id before processing,
after the fan-out completes the report's snapshot fields firstname, lastname,
avatarLocation and company equal c's fields, its type is the canonical fixed
value "visitreport", and both the report id and the snapshot id are
unchanged — propagation overwrites only the four descriptive fields. -/
theorem notification_propagates_snapshot_fields
    (store : List VisitReportModel) (c : ContactDoc) (j : Nat)
    (hj : j < store.length) (hnd : ((store.map fun r => r.id).Nodup))
    (hmatch : store[j].contact.id = c.id) :
    ∃ r1, (processNotification store c)[j]? = some r1 ∧
      r1.contact.firstname = c.firstname ∧
      r1.contact.lastname = c.lastname ∧
      r1.contact.avatarLocation = c.avatarLocation ∧
      r1.contact.company = c.company ∧
      r1.type = "visitreport" ∧
      r1.id = store[j].id ∧
      r1.contact.id = store[j].contact.id := by
  refine ⟨updateContactFields store[j] c, ?_, rfl, rfl, rfl, rfl, rfl, rfl, rfl⟩
  unfold processNotification
  rw [fanOut_eq_map store c _ hnd, List.getElem?_map, List.getElem?_eq_getElem hj]
  simp [snapshotStep, hmatch]

/-- Witness for C1 at a concrete store and notification. -/
theorem notification_propagates_snapshot_fields_witness :
    ∃ r1, (processNotification [sampleReport] sampleContact)[0]? = some r1 ∧
      r1.contact.firstname = sampleContact.firstname ∧
      r1.contact.lastname = sampleContact.lastname ∧
      r1.contact.avatarLocation = sampleContact.avatarLocation ∧
      r1.contact.company = sampleContact.company ∧
      r1.type = "visitreport" ∧
      r1.id = [sampleReport][0].id ∧
      r1.contact.id = [sampleReport][0].contact.id :=
  notification_propagates_snapshot_fields [sampleReport] sampleContact 0
    (by decide) (by decide) (by decide)

/-- C6: processing the same contact-change notification twice in sequence
yields the same final store as processing it once — the fan-out update is
idempotent, being a full overwrite of the same four fields from the same
source values. -/
theorem notification_processing_idempotent
    (store : List VisitReportModel) (c : ContactDoc)
    (hnd : ((store.map fun r => r.id).Nodup)) :
    processNotification (processNotification store c) c =
      processNotification store c := by
  unfold processNotification
  have hnd2 : (((fanOut store c fun _ => true).map fun r => r.id).Nodup) := by
    rw [fanOut_ids store c _ hnd]; exact hnd
  rw [fanOut_eq_map _ c _ hnd2, fanOut_eq_map store c _ hnd, List.map_map]
  refine List.map_congr_left ?_
  intro r _
  simp only [Function.comp_apply]
  unfold snapshotStep
  by_cases hp : r.contact.id = c.id
  · simp [hp, updateContactFields_contact_id, updateContactFields_idem]
  · simp [hp]

/-- Witness for C6 at a concrete two-report store. -/
theorem notification_processing_idempotent_witness :
    processNotification
        (processNotification [sampleReport, sampleReport2] sampleContact)
        sampleContact =
      processNotification [sampleReport, sampleReport2] sampleContact :=
  notification_processing_idempotent [sampleReport, sampleReport2]
    sampleContact (by decide)

/-- C7: during fan-out, per-report replaces are isolated: when the replace
for the single document failId fails, every other matched report still
reaches the updated snapshot state. -/
theorem fanOut_single_failure_isolated
    (store : List VisitReportModel) (c : ContactDoc) (failId : String)
    (j : Nat) (hj : j < store.length)
    (hnd : ((store.map fun r => r.id).Nodup))
    (hmatch : store[j].contact.id = c.id) (hne : store[j].id ≠ failId) :
    (fanOut store c fun i => i != failId)[j]? =
      some (updateContactFields store[j] c) := by
  rw [fanOut_eq_map store c _ hnd, List.getElem?_map, List.getElem?_eq_getElem hj]
  simp [snapshotStep, hmatch, hne]

/-- Witness for C7: with two matched reports and the replace for r1 failing,
r2 still reaches the updated state. -/
theorem fanOut_single_failure_isolated_witness :
    (fanOut [sampleReport, sampleReport2] sampleContact fun i => i != "r1")[1]? =
      some (updateContactFields [sampleReport, sampleReport2][1] sampleContact) :=
  fanOut_single_failure_isolated [sampleReport, sampleReport2] sampleContact
    "r1" 1 (by decide) (by decide) (by decide) (by decide)

/-- C2 (bug witness): on a message whose payload fails to decode, the
handler calls Abandon but then still issues the store query, runs the
fan-out with the zero-value contact, and calls Complete on the same message
— it does not return early as the specification states. -/
theorem decode_failure_still_queries_and_completes :
    (runHandler [sampleReport] none true fun _ => true).abandoned = true ∧
    (runHandler [sampleReport] none true fun _ => true).queried = true ∧
    (runHandler [sampleReport] none true fun _ => true).completed = true ∧
    (runHandler [sampleReport] none true fun _ => true).store = [sampleReport] := by
  decide

/-- C3: every successfully decoded notification leads to Complete and never
to Abandon, whatever the query or per-report replace outcomes; a failed
query is logged, the store is left unchanged, and the message is still
completed. -/
theorem decoded_message_completed_never_abandoned
    (store : List VisitReportModel) (c : ContactDoc) (queryOk : Bool)
    (replaceOk : String → Bool) :
    (runHandler store (some c) queryOk replaceOk).completed = true ∧
    (runHandler store (some c) queryOk replaceOk).abandoned = false ∧
    (runHandler store (some c) false replaceOk).store = store := by
  simp [runHandler]

/-- C4 (bug witness): on a payload that fails to decode, the handler calls
both Abandon and Complete on the same message within one invocation, so
acknowledgement is not terminal. -/
theorem malformed_payload_both_abandoned_and_completed :
    (runHandler [] none false fun _ => true).abandoned = true ∧
    (runHandler [] none false fun _ => true).completed = true := by
  decide

/-- C5 (counterexample): a publish (send) failure does change the
HTTP-visible outcome of a create — the handler returns before writing the
success response, so the response differs from the publish-success case even
though the same document was persisted. -/
theorem publish_failure_changes_http_response :
    ((create (Except.ok sampleReport) "n1" true
        (some { sampleReport with type := "visitreport", id := "n1" })
        true false).response ≠
      (create (Except.ok sampleReport) "n1" true
        (some { sampleReport with type := "visitreport", id := "n1" })
        true true).response) ∧
    (create (Except.ok sampleReport) "n1" true
        (some { sampleReport with type := "visitreport", id := "n1" })
        true false).persisted =
      (create (Except.ok sampleReport) "n1" true
        (some { sampleReport with type := "visitreport", id := "n1" })
        true true).persisted := by
  decide

/-- C5 (amended): for create and update, the report mutation is persisted
before publish is attempted, so a serialization or send failure never undoes
it and never surfaces an error status — the same document is persisted as on
the publish-success path — but the handler then returns without writing any
response, so the HTTP-visible outcome is the framework default rather than
the success status and projection body produced when publish succeeds. -/
theorem publish_failure_nonfatal_to_persisted_mutation
    (vr : VisitReportModel) (u : VisitReportUpdateDoc) (newId rid : String)
    (readBack fetched : Option VisitReportModel) (marshalOk : Bool) :
    ((create (Except.ok vr) newId true readBack marshalOk false).persisted =
        (create (Except.ok vr) newId true readBack true true).persisted ∧
      (create (Except.ok vr) newId true readBack marshalOk false).persisted =
        some (newId, { vr with type := "visitreport", id := newId }) ∧
      (create (Except.ok vr) newId true readBack marshalOk false).response =
        HttpResponse.noneWritten ∧
      (create (Except.ok vr) newId true readBack true true).response =
        HttpResponse.json 201 (toReadDoc (readBack.getD zeroModel))) ∧
    ((update rid (Except.ok u) fetched true marshalOk false).persisted =
        (update rid (Except.ok u) fetched true true true).persisted ∧
      (update rid (Except.ok u) fetched true marshalOk false).persisted =
        some (rid, overlayUpdate (fetched.getD zeroModel) u) ∧
      (update rid (Except.ok u) fetched true marshalOk false).response =
        HttpResponse.noneWritten) := by
  cases marshalOk <;> simp [create, update]

/-- C8 (bug witness): a successful update fetches the document, overlays the
incoming mutable fields (replacing the embedded contact wholesale), persists
via replace at the URL id and publishes one VisitReportUpdatedEvent — but the
HTTP body is the zero-value read doc, not the updated report's projection,
because the final copier.Copy call swaps source and destination. -/
theorem update_success_returns_zero_body :
    (update "r1" (Except.ok sampleUpdateDoc) (some sampleReport)
        true true true).persisted =
      some ("r1", overlayUpdate sampleReport sampleUpdateDoc) ∧
    (update "r1" (Except.ok sampleUpdateDoc) (some sampleReport)
        true true true).published =
      [⟨"application/json", "scmvrtopic", 10,
        ⟨"VisitReportUpdatedEvent", "1",
          toReadDoc (overlayUpdate sampleReport sampleUpdateDoc)⟩⟩] ∧
    (update "r1" (Except.ok sampleUpdateDoc) (some sampleReport)
        true true true).response = HttpResponse.json 200 zeroReadDoc ∧
    zeroReadDoc ≠ toReadDoc (overlayUpdate sampleReport sampleUpdateDoc) := by
  decide

/-- C9: every create that produces the 201 success response published exactly
one event with eventType "VisitReportCreatedEvent" and version "1", and every
update that produces its 200 success response published exactly one event
with eventType "VisitReportUpdatedEvent" and version "1", each tagged
content-type "application/json" and sent to topic "scmvrtopic" under the
10-second deadline; the created report is persisted with the freshly
generated id and the fixed type "visitreport". -/
theorem successful_mutation_publishes_one_versioned_event
    (vr : VisitReportModel) (u : VisitReportUpdateDoc) (newId rid : String)
    (readBack fetched : Option VisitReportModel)
    (createOk marshalOkC sendOkC replaceOk marshalOkU sendOkU : Bool)
    (bodyC bodyU : VisitReportReadDoc)
    (hc : (create (Except.ok vr) newId createOk readBack marshalOkC
        sendOkC).response = HttpResponse.json 201 bodyC)
    (hu : (update rid (Except.ok u) fetched replaceOk marshalOkU
        sendOkU).response = HttpResponse.json 200 bodyU) :
    (create (Except.ok vr) newId createOk readBack marshalOkC
        sendOkC).published =
      [⟨"application/json", "scmvrtopic", 10,
        ⟨"VisitReportCreatedEvent", "1",
          toReadDoc (readBack.getD zeroModel)⟩⟩] ∧
    (create (Except.ok vr) newId createOk readBack marshalOkC
        sendOkC).persisted =
      some (newId, { vr with type := "visitreport", id := newId }) ∧
    (update rid (Except.ok u) fetched replaceOk marshalOkU
        sendOkU).published =
      [⟨"application/json", "scmvrtopic", 10,
        ⟨"VisitReportUpdatedEvent", "1",
          toReadDoc (overlayUpdate (fetched.getD zeroModel) u)⟩⟩] := by
  cases createOk <;> cases marshalOkC <;> cases sendOkC <;> cases replaceOk <;>
    cases marshalOkU <;> cases sendOkU <;>
    simp_all [create, update]

/-- Witness for C9 at concrete create and update requests. -/
theorem successful_mutation_publishes_one_versioned_event_witness :
    (create (Except.ok sampleReport) "n1" true
        (some { sampleReport with type := "visitreport", id := "n1" })
        true true).published =
      [⟨"application/json", "scmvrtopic", 10,
        ⟨"VisitReportCreatedEvent", "1",
          toReadDoc ((some { sampleReport with
            type := "visitreport", id := "n1" }).getD zeroModel)⟩⟩] ∧
    (create (Except.ok sampleReport) "n1" true
        (some { sampleReport with type := "visitreport", id := "n1" })
        true true).persisted =
      some ("n1", { sampleReport with type := "visitreport", id := "n1" }) ∧
    (update "r1" (Except.ok sampleUpdateDoc) (some sampleReport)
        true true true).published =
      [⟨"application/json", "scmvrtopic", 10,
        ⟨"VisitReportUpdatedEvent", "1",
          toReadDoc (overlayUpdate ((some sampleReport).getD zeroModel)
            sampleUpdateDoc)⟩⟩] :=
  successful_mutation_publishes_one_versioned_event sampleReport
    sampleUpdateDoc "n1" "r1"
    (some { sampleReport with type := "visitreport", id := "n1" })
    (some sampleReport) true true true true true true
    (toReadDoc { sampleReport with type := "visitreport", id := "n1" })
    zeroReadDoc (by decide) (by decide)

/-- C10: the delete handler responds HTTP 200 unconditionally; a store
delete error changes only whether the document was removed, never the
response surfaced to the client. -/
theorem delete_always_responds_ok (deleteOk : Bool) :
    (deleteReport deleteOk).response = HttpResponse.statusOnly 200 ∧
    (deleteReport false).response = (deleteReport true).response ∧
    (deleteReport false).removed = false := by
  cases deleteOk <;> simp [deleteReport]

end VisitReports
